import Mathlib

/-!
Verification of `prefect_slack/credentials.py` (the `SlackCredentials` and
`SlackWebhook` blocks) against its natural-language specification.

The Python source is shallowly embedded below: the holder classes become
structures, the pass-through methods become pure functions, the external
transport (`slack_sdk` client `send`) is a parameter (a stub mapping the
bound webhook URL and the message text to either a transport-level error or
a response), and Python exceptions become `Except` results.  Host-framework
facts that the code probes dynamically (the `_raise_on_failure` capability
flag of `prefect>=2.17.2` and the importability of
`prefect.blocks.abstract.NotificationError`) are gathered in a `Host`
record.
-/

namespace PrefectSlack

/-- Embedding of pydantic `SecretStr`: an opaque wrapper around a string,
unwrapped only through `get_secret_value`. -/
structure SecretStr where
  value : String
deriving Repr, DecidableEq

/-- `SecretStr.get_secret_value()`. -/
def SecretStr.get_secret_value (s : SecretStr) : String :=
  s.value

/-- Embedding of a `slack_sdk` webhook response: an HTTP-like status code and
the response body text. -/
structure Response where
  status_code : Int
  body : String
deriving Repr, DecidableEq

/-- Embedding of `slack_sdk.web.async_client.AsyncWebClient`: the handle
constructed by `AsyncWebClient(token=...)`, carrying the token it was built
with.  Construction performs no network call. -/
structure AsyncWebClient where
  token : String
deriving Repr, DecidableEq

/-- Embedding of the `SlackCredentials` block: it stores a single pydantic
field, `token : SecretStr`. -/
structure SlackCredentials where
  token : SecretStr
deriving Repr, DecidableEq

/-- `SlackCredentials.get_client`:
`return AsyncWebClient(token=self.token.get_secret_value())`. -/
def SlackCredentials.get_client (c : SlackCredentials) : AsyncWebClient :=
  { token := c.token.get_secret_value }

/-- Embedding of the `SlackWebhook` block: it stores a single pydantic field,
`url : SecretStr`. -/
structure SlackWebhook where
  url : SecretStr
deriving Repr, DecidableEq

/-- Embedding of the return type
`Union[AsyncWebhookClient, WebhookClient]` of `SlackWebhook.get_client`:
either a blocking `WebhookClient(url=...)` or a suspension-based
`AsyncWebhookClient(url=...)`, each carrying the URL it was built with. -/
inductive ClientHandle where
  | syncClient (url : String)
  | asyncClient (url : String)
deriving Repr, DecidableEq

/-- The URL a webhook client handle is bound to. -/
def ClientHandle.boundUrl : ClientHandle → String
  | .syncClient u => u
  | .asyncClient u => u

/-- `SlackWebhook.get_client(sync_client: bool = False)`:
`if sync_client: return WebhookClient(url=self.url.get_secret_value())`
`return AsyncWebhookClient(url=self.url.get_secret_value())`. -/
def SlackWebhook.get_client (w : SlackWebhook) (sync_client : Bool := false) :
    ClientHandle :=
  if sync_client then ClientHandle.syncClient (w.url.get_secret_value)
  else ClientHandle.asyncClient (w.url.get_secret_value)

/-- The host-framework facts that `credentials.py` probes dynamically:
whether the prefect base class (`prefect>=2.17.2`) declares the private
`_raise_on_failure` capability flag, the current value of that flag when it
is declared, and whether `from prefect.blocks.abstract import
NotificationError` succeeds. -/
structure Host where
  hasRaiseOnFailureFlag : Bool
  raiseOnFailureFlag : Bool
  hasNotificationErrorType : Bool
deriving Repr, DecidableEq

/-- A Python attribute value, as relevant to the dynamic lookup performed by
`getattr(self, "_raise_on_failure", False)`: either a bound method object,
or a boolean. -/
inductive AttrValue where
  | boundMethod
  | boolVal (b : Bool)
deriving Repr, DecidableEq

/-- Python truthiness of the looked-up attribute: a bound method object is
always truthy; a boolean is its own truth value. -/
def AttrValue.truthy : AttrValue → Bool
  | .boundMethod => true
  | .boolVal b => b

/-- Whether the class `SlackWebhook` itself defines an attribute named
`_raise_on_failure` in its class dictionary.  It does: `credentials.py`
defines the *method* `_raise_on_failure` on `SlackWebhook`. -/
def slackWebhookDefinesRaiseOnFailureMethod : Bool :=
  true

/-- Embedding of `getattr(self, "_raise_on_failure", False)` on a
`SlackWebhook` instance, following Python attribute lookup: the class
dictionary of `SlackWebhook` is consulted before pydantic private
attributes of the base class can be reached (a method found there is a
non-data descriptor returned directly, and pydantic v2 serves private
attributes from `__pydantic_private__` only via `__getattr__`, which fires
only when ordinary lookup fails).  Since `SlackWebhook` defines the method
`_raise_on_failure` itself, the lookup yields the bound method; otherwise
it would yield the base-class capability flag when declared, and the
`getattr` default `False` when absent. -/
def getattrRaiseOnFailure (host : Host) : AttrValue :=
  if slackWebhookDefinesRaiseOnFailureMethod then AttrValue.boundMethod
  else if host.hasRaiseOnFailureFlag then AttrValue.boolVal host.raiseOnFailureFlag
  else AttrValue.boolVal false

/-- A transport-level error raised inside the underlying client library
(network or authentication failure). -/
structure TransportError where
  msg : String
deriving Repr, DecidableEq

/-- Which error class the failure branch raises: the host type
`prefect.blocks.abstract.NotificationError` when its import succeeds, the
generic `Exception` fallback when the import fails. -/
inductive ErrKind where
  | notificationError
  | genericException
deriving Repr, DecidableEq

/-- An exception propagating out of `notify`: either a transport error from
`client.send` (propagated unchanged), or the raise performed by
`_raise_on_failure` carrying its message. -/
inductive NotifyError where
  | transport (e : TransportError)
  | failure (kind : ErrKind) (message : String)
deriving Repr, DecidableEq

/-- Embedding of `SlackWebhook._raise_on_failure(response)`:
`if getattr(self, "_raise_on_failure", False):` then import
`NotificationError` (falling back to `Exception`), and
`if response.status_code >= 400: raise NotificationError(f"Failed to send
message: {response.body}")`.  Raising becomes an `Except.error`. -/
def SlackWebhook.raise_on_failure (_w : SlackWebhook) (host : Host)
    (response : Response) : Except NotifyError Unit :=
  if (getattrRaiseOnFailure host).truthy then
    if response.status_code ≥ 400 then
      Except.error (NotifyError.failure
        (if host.hasNotificationErrorType then ErrKind.notificationError
         else ErrKind.genericException)
        ("Failed to send message: " ++ response.body))
    else Except.ok ()
  else Except.ok ()

/-- A stubbed transport for the webhook clients: given the URL the client is
bound to and the message text passed to `send(text=...)`, return either the
response or a transport-level error.  Both the blocking and the
suspension-based client of one holder share the stub, as in the spec's
stubbed-client tests. -/
def Stub : Type :=
  String → String → Except TransportError Response

deriving instance DecidableEq for Except

/-- The observable outcome of one `notify` invocation: the returned value or
raised exception, together with the list of texts passed to the client
`send` operation, in order. -/
structure NotifyResult where
  outcome : Except NotifyError Unit
  sentTexts : List String
deriving Repr, DecidableEq

/-- Embedding of the synchronous body of `SlackWebhook.notify`:
`client = self.get_client(sync_client=True)`,
`response = client.send(text=body)`,
`self._raise_on_failure(response)`.  A transport error from `send`
propagates unchanged; `subject` is accepted and ignored. -/
def SlackWebhook.notify (w : SlackWebhook) (host : Host) (stub : Stub)
    (body : String) (_subject : Option String := none) : NotifyResult :=
  let client := w.get_client true
  match stub client.boundUrl body with
  | Except.error e =>
      { outcome := Except.error (NotifyError.transport e), sentTexts := [body] }
  | Except.ok response =>
      { outcome := w.raise_on_failure host response, sentTexts := [body] }

/-- Embedding of the module-level coroutine `_notify_async(obj, body,
subject=None)`: `client = obj.get_client()` (the async client, by default
argument), `response = await client.send(text=body)`,
`obj._raise_on_failure(response)`. -/
def notifyAsyncImpl (obj : SlackWebhook) (host : Host) (stub : Stub)
    (body : String) (_subject : Option String := none) : NotifyResult :=
  let client := obj.get_client
  match stub client.boundUrl body with
  | Except.error e =>
      { outcome := Except.error (NotifyError.transport e), sentTexts := [body] }
  | Except.ok response =>
      { outcome := obj.raise_on_failure host response, sentTexts := [body] }

/-- Embedding of `SlackWebhook.notify_async`:
`await _notify_async(self, body, subject)`. -/
def SlackWebhook.notify_async (w : SlackWebhook) (host : Host) (stub : Stub)
    (body : String) (subject : Option String := none) : NotifyResult :=
  notifyAsyncImpl w host stub body subject

/-- Embedding of the `@async_dispatch(_notify_async)` decorator on `notify`:
when the call site is already inside a suspension-capable (async) context,
the call is routed to `_notify_async`; otherwise the synchronous body runs. -/
def SlackWebhook.notify_dispatched (w : SlackWebhook) (inAsyncContext : Bool)
    (host : Host) (stub : Stub) (body : String)
    (subject : Option String := none) : NotifyResult :=
  if inAsyncContext then notifyAsyncImpl w host stub body subject
  else w.notify host stub body subject

/-! ### Allocation-instrumented variants

Python object construction yields a fresh object identity each time a
constructor runs.  To reason about object identity (`is`, caching, reuse)
we instrument the same method bodies with an allocation counter: the
counter is the next fresh object id, and every constructor call consumes
it.  Nothing in `credentials.py` stores a constructed client on `self` or
in any module-level variable, so the only ids in play are the ones handed
out per call. -/

/-- An `AsyncWebClient` object together with its Python object identity. -/
structure AsyncWebClientObj where
  objId : Nat
  token : String
deriving Repr, DecidableEq

/-- `SlackCredentials.get_client`, instrumented with the allocation counter:
the body runs exactly one constructor, `AsyncWebClient(token=...)`. -/
def SlackCredentials.get_client_alloc (c : SlackCredentials) (ctr : Nat) :
    AsyncWebClientObj × Nat :=
  ({ objId := ctr, token := c.token.get_secret_value }, ctr + 1)

/-- A webhook client object together with its Python object identity and
which of the two classes (`WebhookClient` vs `AsyncWebhookClient`) it is. -/
structure WebhookClientObj where
  objId : Nat
  isSyncClient : Bool
  url : String
deriving Repr, DecidableEq

/-- `SlackWebhook.get_client`, instrumented with the allocation counter:
each branch of the body runs exactly one constructor. -/
def SlackWebhook.get_client_alloc (w : SlackWebhook) (sync_client : Bool)
    (ctr : Nat) : WebhookClientObj × Nat :=
  if sync_client then
    ({ objId := ctr, isSyncClient := true, url := w.url.get_secret_value }, ctr + 1)
  else
    ({ objId := ctr, isSyncClient := false, url := w.url.get_secret_value }, ctr + 1)

/-- The synchronous body of `SlackWebhook.notify`, instrumented with the
allocation counter: it calls `self.get_client(sync_client=True)` once and
uses the resulting fresh handle for the single `send`.  Returns the outcome,
the client handle the call constructed, and the new counter. -/
def SlackWebhook.notify_alloc (w : SlackWebhook) (host : Host) (stub : Stub)
    (body : String) (ctr : Nat) : NotifyResult × WebhookClientObj × Nat :=
  let (client, ctr1) := w.get_client_alloc true ctr
  match stub client.url body with
  | Except.error e =>
      ({ outcome := Except.error (NotifyError.transport e), sentTexts := [body] },
       client, ctr1)
  | Except.ok response =>
      ({ outcome := w.raise_on_failure host response, sentTexts := [body] },
       client, ctr1)

/-! ### State-threaded variants

The methods of both holders assign only to local variables (`client`,
`response`); no statement assigns to a field of `self`.  The state-threaded
variants below return, next to the method result, the holder state the call
leaves behind — translating a body with no self-assignment, that state is
the input holder. -/

/-- `SlackCredentials.get_client` with the post-call holder state. -/
def SlackCredentials.get_client_st (c : SlackCredentials) :
    AsyncWebClient × SlackCredentials :=
  (c.get_client, c)

/-- `SlackWebhook.get_client` with the post-call holder state. -/
def SlackWebhook.get_client_st (w : SlackWebhook) (sync_client : Bool) :
    ClientHandle × SlackWebhook :=
  (w.get_client sync_client, w)

/-- The synchronous `SlackWebhook.notify` with the post-call holder state
(the same whether the call returns normally or raises). -/
def SlackWebhook.notify_st (w : SlackWebhook) (host : Host) (stub : Stub)
    (body : String) (subject : Option String := none) :
    NotifyResult × SlackWebhook :=
  (w.notify host stub body subject, w)

/-- `_notify_async` with the post-call holder state. -/
def notifyAsyncImpl_st (obj : SlackWebhook) (host : Host) (stub : Stub)
    (body : String) (subject : Option String := none) :
    NotifyResult × SlackWebhook :=
  (notifyAsyncImpl obj host stub body subject, obj)

/-! ### Helper lemmas (shared) -/

/-- Both notify bodies pass exactly `body` to `send`, once. -/
theorem notify_sentTexts_eq (w : SlackWebhook) (host : Host) (stub : Stub)
    (body : String) (subject : Option String) :
    (SlackWebhook.notify w host stub body subject).sentTexts = [body] := by
  simp only [SlackWebhook.notify]
  split <;> rfl

/-- The async body also passes exactly `body` to `send`, once. -/
theorem notifyAsyncImpl_sentTexts_eq (w : SlackWebhook) (host : Host) (stub : Stub)
    (body : String) (subject : Option String) :
    (notifyAsyncImpl w host stub body subject).sentTexts = [body] := by
  simp only [notifyAsyncImpl]
  split <;> rfl

/-- The outcome of the synchronous body, as a function of the stub's answer
at the bound URL. -/
theorem notify_outcome_eq (w : SlackWebhook) (host : Host) (stub : Stub)
    (body : String) (subject : Option String) :
    (SlackWebhook.notify w host stub body subject).outcome
      = match stub (w.url.get_secret_value) body with
        | Except.error e => Except.error (NotifyError.transport e)
        | Except.ok r => w.raise_on_failure host r := by
  cases h : stub (w.url.get_secret_value) body <;>
    simp [SlackWebhook.notify, SlackWebhook.get_client, ClientHandle.boundUrl, h]

/-- The outcome of the async body, as a function of the stub's answer at the
bound URL: identical in shape to the synchronous one. -/
theorem notifyAsyncImpl_outcome_eq (w : SlackWebhook) (host : Host) (stub : Stub)
    (body : String) (subject : Option String) :
    (notifyAsyncImpl w host stub body subject).outcome
      = match stub (w.url.get_secret_value) body with
        | Except.error e => Except.error (NotifyError.transport e)
        | Except.ok r => w.raise_on_failure host r := by
  cases h : stub (w.url.get_secret_value) body <;>
    simp [notifyAsyncImpl, SlackWebhook.get_client, ClientHandle.boundUrl, h]

/-- `_raise_on_failure` returns normally on any status code below 400,
whatever the host capabilities. -/
theorem raise_on_failure_ok_of_lt (w : SlackWebhook) (host : Host)
    (resp : Response) (h : resp.status_code < 400) :
    w.raise_on_failure host resp = Except.ok () := by
  simp only [SlackWebhook.raise_on_failure, getattrRaiseOnFailure,
    slackWebhookDefinesRaiseOnFailureMethod, AttrValue.truthy, if_true]
  rw [if_neg (by omega)]

/-! ### Claim theorems -/

/-- C1: the claim says `notify` raises iff the host wants failure surfacing
and the status is ≥ 400, and in particular never raises when the capability
is absent (older host).  The code diverges: `getattr(self,
"_raise_on_failure", False)` finds the method `_raise_on_failure` that
`SlackWebhook` itself defines — a bound method, always truthy — so at the
claim's own test input (stub status 404, body `invalid_payload`, host
without the capability flag and without `NotificationError`) both forms of
`notify("hi")` raise instead of returning normally, contradicting the
code's own comment about probing the base-class attribute first. -/
theorem C1_code_raises_despite_absent_capability :
    (SlackWebhook.notify { url := { value := "https://hooks.slack.com/XXX" } }
        { hasRaiseOnFailureFlag := false, raiseOnFailureFlag := false,
          hasNotificationErrorType := false }
        (fun _ _ => Except.ok { status_code := 404, body := "invalid_payload" })
        "hi").outcome
      = Except.error (NotifyError.failure ErrKind.genericException
          "Failed to send message: invalid_payload")
    ∧ (notifyAsyncImpl { url := { value := "https://hooks.slack.com/XXX" } }
        { hasRaiseOnFailureFlag := false, raiseOnFailureFlag := false,
          hasNotificationErrorType := false }
        (fun _ _ => Except.ok { status_code := 404, body := "invalid_payload" })
        "hi").outcome
      = Except.error (NotifyError.failure ErrKind.genericException
          "Failed to send message: invalid_payload") := by
  decide

/-- C2: for every body and subject, both forms of `notify` pass exactly the
body string to the client's `send`, and the subject value never reaches the
transmitted payload: the whole observable result is unchanged when the
subject is replaced by `none`. -/
theorem C2_body_sent_exactly_subject_ignored :
    ∀ (w : SlackWebhook) (host : Host) (stub : Stub) (body : String)
      (subject : Option String),
      (SlackWebhook.notify w host stub body subject).sentTexts = [body]
      ∧ (notifyAsyncImpl w host stub body subject).sentTexts = [body]
      ∧ SlackWebhook.notify w host stub body subject
          = SlackWebhook.notify w host stub body none
      ∧ notifyAsyncImpl w host stub body subject
          = notifyAsyncImpl w host stub body none :=
  fun w host stub body subject =>
    ⟨notify_sentTexts_eq w host stub body subject,
     notifyAsyncImpl_sentTexts_eq w host stub body subject, rfl, rfl⟩

/-- C3: for every holder, host, stubbed client, body and subject, the
blocking path of `notify`, the `notify_async` method, and the
`async_dispatch` routing in either context all produce the same observable
result (same success/failure and the same error value on failure). -/
theorem C3_blocking_and_suspending_paths_agree :
    ∀ (w : SlackWebhook) (host : Host) (stub : Stub) (body : String)
      (subject : Option String),
      SlackWebhook.notify w host stub body subject
        = notifyAsyncImpl w host stub body subject
      ∧ SlackWebhook.notify_async w host stub body subject
          = SlackWebhook.notify w host stub body subject
      ∧ ∀ inAsyncContext : Bool,
          SlackWebhook.notify_dispatched w inAsyncContext host stub body subject
            = SlackWebhook.notify w host stub body subject := by
  intro w host stub body subject
  refine ⟨rfl, rfl, ?_⟩
  intro inAsyncContext
  cases inAsyncContext <;> rfl

/-- C4: for every credential holder with a non-empty stored token,
`get_client()` returns exactly the handle constructed from the unwrapped
secret — its internal token equals the secret's unwrapped value, and
nothing else happens (the body is a single constructor call). -/
theorem C4_get_client_binds_unwrapped_token (c : SlackCredentials)
    (_hnonempty : c.token.get_secret_value ≠ "") :
    c.get_client = { token := c.token.get_secret_value }
    ∧ (c.get_client).token = c.token.get_secret_value :=
  ⟨rfl, rfl⟩

/-- C4 witness: a concrete non-empty token. -/
theorem C4_witness :
    (SlackCredentials.get_client { token := { value := "xoxb-token" } })
      = { token := "xoxb-token" } :=
  (C4_get_client_binds_unwrapped_token { token := { value := "xoxb-token" } }
    (by decide)).1

/-- C5: for every webhook holder, the sync-variant handle and the
async-variant handle returned by `get_client` are bound to the same URL,
namely the unwrapped stored secret. -/
theorem C5_sync_and_async_handles_bind_same_url :
    ∀ w : SlackWebhook,
      (w.get_client true).boundUrl = w.url.get_secret_value
      ∧ (w.get_client false).boundUrl = w.url.get_secret_value :=
  fun _ => ⟨rfl, rfl⟩

/-- C6: whenever the stubbed client answers `notify("hi")` with a status-200
response, both the blocking and the suspension-based form return normally,
for every host (with or without the failure-surfacing capability). -/
theorem C6_status_200_returns_normally (w : SlackWebhook) (host : Host)
    (stub : Stub) (resp : Response)
    (hstub : stub (w.url.get_secret_value) "hi" = Except.ok resp)
    (h200 : resp.status_code = 200) :
    (SlackWebhook.notify w host stub "hi").outcome = Except.ok ()
    ∧ (notifyAsyncImpl w host stub "hi").outcome = Except.ok () := by
  rw [notify_outcome_eq, notifyAsyncImpl_outcome_eq, hstub]
  exact ⟨raise_on_failure_ok_of_lt w host resp (by omega),
    raise_on_failure_ok_of_lt w host resp (by omega)⟩

/-- C6 witness: a concrete holder, host without any capability, and a stub
answering 200. -/
theorem C6_witness :
    (SlackWebhook.notify { url := { value := "https://hooks.slack.com/XXX" } }
        { hasRaiseOnFailureFlag := false, raiseOnFailureFlag := false,
          hasNotificationErrorType := false }
        (fun _ _ => Except.ok { status_code := 200, body := "ok" })
        "hi").outcome = Except.ok () :=
  (C6_status_200_returns_normally
    { url := { value := "https://hooks.slack.com/XXX" } }
    { hasRaiseOnFailureFlag := false, raiseOnFailureFlag := false,
      hasNotificationErrorType := false }
    (fun _ _ => Except.ok { status_code := 200, body := "ok" })
    { status_code := 200, body := "ok" } rfl rfl).1

/-- C7: every invocation of either form of `notify` calls the client's
`send` exactly once, and a transport error raised by `send` itself
propagates to the caller unchanged on both paths. -/
theorem C7_single_send_and_transport_propagates :
    ∀ (w : SlackWebhook) (host : Host) (stub : Stub) (body : String)
      (subject : Option String),
      ((SlackWebhook.notify w host stub body subject).sentTexts.length = 1
       ∧ (notifyAsyncImpl w host stub body subject).sentTexts.length = 1)
      ∧ ∀ e : TransportError,
          stub (w.url.get_secret_value) body = Except.error e →
          (SlackWebhook.notify w host stub body subject).outcome
              = Except.error (NotifyError.transport e)
          ∧ (notifyAsyncImpl w host stub body subject).outcome
              = Except.error (NotifyError.transport e) := by
  intro w host stub body subject
  refine ⟨⟨?_, ?_⟩, ?_⟩
  · rw [notify_sentTexts_eq]; rfl
  · rw [notifyAsyncImpl_sentTexts_eq]; rfl
  · intro e he
    rw [notify_outcome_eq, notifyAsyncImpl_outcome_eq, he]
    exact ⟨rfl, rfl⟩

/-- C7 witness: a stub whose `send` raises a transport error; the error
comes back unchanged. -/
theorem C7_witness :
    (SlackWebhook.notify { url := { value := "https://hooks.slack.com/XXX" } }
        { hasRaiseOnFailureFlag := true, raiseOnFailureFlag := true,
          hasNotificationErrorType := true }
        (fun _ _ => Except.error { msg := "connection reset" })
        "hi").outcome
      = Except.error (NotifyError.transport { msg := "connection reset" }) :=
  ((C7_single_send_and_transport_propagates
      { url := { value := "https://hooks.slack.com/XXX" } }
      { hasRaiseOnFailureFlag := true, raiseOnFailureFlag := true,
        hasNotificationErrorType := true }
      (fun _ _ => Except.error { msg := "connection reset" })
      "hi" none).2 { msg := "connection reset" } rfl).1

/-- C8: every call of `get_client` (either holder) and every `notify`
invocation constructs a fresh client object from the stored secret: two
successive calls yield handles with distinct object identities, each built
from the same unwrapped secret, and `notify` allocates exactly the one
handle it uses. -/
theorem C8_fresh_handle_every_call :
    ∀ (c : SlackCredentials) (w : SlackWebhook) (b1 b2 : Bool) (host : Host)
      (stub : Stub) (body : String) (ctr : Nat),
      ((c.get_client_alloc ctr).1.objId
          ≠ (c.get_client_alloc ((c.get_client_alloc ctr).2)).1.objId
       ∧ (c.get_client_alloc ctr).1.token = c.token.get_secret_value
       ∧ (c.get_client_alloc ((c.get_client_alloc ctr).2)).1.token
           = c.token.get_secret_value)
      ∧ ((w.get_client_alloc b1 ctr).1.objId
           ≠ (w.get_client_alloc b2 ((w.get_client_alloc b1 ctr).2)).1.objId
         ∧ (w.get_client_alloc b1 ctr).1.url = w.url.get_secret_value
         ∧ (w.get_client_alloc b2 ((w.get_client_alloc b1 ctr).2)).1.url
             = w.url.get_secret_value)
      ∧ ((w.notify_alloc host stub body ctr).2.1.objId = ctr
         ∧ (w.notify_alloc host stub body ctr).2.2 = ctr + 1
         ∧ (w.notify_alloc host stub body ctr).2.1.url
             = w.url.get_secret_value) := by
  intro c w b1 b2 host stub body ctr
  refine ⟨⟨by simp [SlackCredentials.get_client_alloc], rfl, rfl⟩,
    ⟨?_, ?_, ?_⟩, ⟨?_, ?_, ?_⟩⟩
  · cases b1 <;> cases b2 <;> simp [SlackWebhook.get_client_alloc]
  · cases b1 <;> rfl
  · cases b1 <;> cases b2 <;> rfl
  all_goals
    simp only [SlackWebhook.notify_alloc, SlackWebhook.get_client_alloc, if_true]
    split <;> rfl

/-- C9: called with no argument, `get_client` on the webhook holder uses the
default `sync_client = False` and returns the suspension-based
(`AsyncWebhookClient`) variant. -/
theorem C9_default_get_client_is_async :
    ∀ w : SlackWebhook,
      w.get_client = ClientHandle.asyncClient (w.url.get_secret_value) :=
  fun _ => rfl

/-- C10: no public operation mutates a holder: after `get_client` on either
holder and after either form of `notify` — whether the outcome is normal or
a raise — the holder state left behind equals the holder at entry (so the
`token` and `url` fields are unchanged). -/
theorem C10_holders_never_mutated :
    ∀ (c : SlackCredentials) (w : SlackWebhook) (host : Host) (stub : Stub)
      (body : String) (subject : Option String),
      (c.get_client_st).2 = c
      ∧ (w.get_client_st true).2 = w
      ∧ (w.get_client_st false).2 = w
      ∧ (SlackWebhook.notify_st w host stub body subject).2 = w
      ∧ (notifyAsyncImpl_st w host stub body subject).2 = w :=
  fun _ _ _ _ _ _ => ⟨rfl, rfl, rfl, rfl, rfl⟩

end PrefectSlack
